import Mathlib

namespace DogWalkerApp

/-- The lines every one of the four `html_document` f-string templates begins with, up to and including the opening `<style>` tag; that this text is identical across the four templates is visible by direct comparison of the sources. -/
def docHead : String :=
  String.intercalate "\n" [
    "",
    "    <!DOCTYPE html>",
    "    <html>",
    "    <head>",
    "        <meta charset=\"utf-8\">",
    "        <title>IB Computer Science HL - Criterion C Report</title>",
    "        <style>"]

/-- The lines every one of the four templates places between the closing `</style>` tag and the `\x7bhtml\x7d` interpolation point; identical across the four templates. -/
def docMid : String :=
  String.intercalate "\n" [
    "        </style>",
    "    </head>",
    "    <body>",
    "        "]

/-- Text of all four templates after the `\x7bhtml\x7d` interpolation point; identical across the four templates. -/
def docSuffix : String := "\n    </body>\n    </html>\n    "

/-- The style rules of the PDF-oriented template (`generate_pdf_report.convert_markdown_to_pdf`, the lines between `<style>` and `</style>`). -/
def pdfCss : String :=
  String.intercalate "\n" [
    "            body \x7b",
    "                font-family: \x27Times New Roman\x27, serif;",
    "                line-height: 1.6;",
    "                margin: 40px;",
    "                color: #333;",
    "            \x7d",
    "            ",
    "            h1 \x7b",
    "                color: #2c3e50;",
    "                border-bottom: 3px solid #3498db;",
    "                padding-bottom: 10px;",
    "                page-break-before: always;",
    "            \x7d",
    "            ",
    "            h1:first-child \x7b",
    "                page-break-before: auto;",
    "            \x7d",
    "            ",
    "            h2 \x7b",
    "                color: #34495e;",
    "                border-bottom: 2px solid #ecf0f1;",
    "                padding-bottom: 5px;",
    "                margin-top: 30px;",
    "            \x7d",
    "            ",
    "            h3 \x7b",
    "                color: #7f8c8d;",
    "                margin-top: 25px;",
    "            \x7d",
    "            ",
    "            h4 \x7b",
    "                color: #95a5a6;",
    "                margin-top: 20px;",
    "            \x7d",
    "            ",
    "            code \x7b",
    "                background-color: #f8f9fa;",
    "                border: 1px solid #e9ecef;",
    "                border-radius: 3px;",
    "                padding: 2px 4px;",
    "                font-family: \x27Courier New\x27, monospace;",
    "                font-size: 0.9em;",
    "            \x7d",
    "            ",
    "            pre \x7b",
    "                background-color: #f8f9fa;",
    "                border: 1px solid #e9ecef;",
    "                border-radius: 5px;",
    "                padding: 15px;",
    "                overflow-x: auto;",
    "                margin: 15px 0;",
    "            \x7d",
    "            ",
    "            pre code \x7b",
    "                background: none;",
    "                border: none;",
    "                padding: 0;",
    "            \x7d",
    "            ",
    "            table \x7b",
    "                border-collapse: collapse;",
    "                width: 100%;",
    "                margin: 20px 0;",
    "            \x7d",
    "            ",
    "            th, td \x7b",
    "                border: 1px solid #ddd;",
    "                padding: 12px;",
    "                text-align: left;",
    "            \x7d",
    "            ",
    "            th \x7b",
    "                background-color: #f2f2f2;",
    "                font-weight: bold;",
    "            \x7d",
    "            ",
    "            tr:nth-child(even) \x7b",
    "                background-color: #f9f9f9;",
    "            \x7d",
    "            ",
    "            .algorithm-complexity \x7b",
    "                background-color: #e8f5e8;",
    "                border-left: 4px solid #27ae60;",
    "                padding: 10px;",
    "                margin: 10px 0;",
    "            \x7d",
    "            ",
    "            .code-explanation \x7b",
    "                background-color: #fff3cd;",
    "                border-left: 4px solid #ffc107;",
    "                padding: 10px;",
    "                margin: 10px 0;",
    "            \x7d",
    "            ",
    "            .performance-metric \x7b",
    "                background-color: #d1ecf1;",
    "                border-left: 4px solid #17a2b8;",
    "                padding: 10px;",
    "                margin: 10px 0;",
    "            \x7d",
    "            ",
    "            .page-break \x7b",
    "                page-break-before: always;",
    "            \x7d",
    "            ",
    "            .no-break \x7b",
    "                page-break-inside: avoid;",
    "            \x7d",
    "            ",
    "            ul, ol \x7b",
    "                margin: 15px 0;",
    "                padding-left: 30px;",
    "            \x7d",
    "            ",
    "            li \x7b",
    "                margin: 5px 0;",
    "            \x7d",
    "            ",
    "            blockquote \x7b",
    "                border-left: 4px solid #3498db;",
    "                margin: 20px 0;",
    "                padding: 10px 20px;",
    "                background-color: #f8f9fa;",
    "            \x7d",
    "            ",
    "            .toc \x7b",
    "                background-color: #f8f9fa;",
    "                border: 1px solid #e9ecef;",
    "                border-radius: 5px;",
    "                padding: 20px;",
    "                margin: 20px 0;",
    "            \x7d",
    "            ",
    "            .toc h2 \x7b",
    "                margin-top: 0;",
    "                color: #2c3e50;",
    "            \x7d",
    "            ",
    "            .toc ul \x7b",
    "                list-style-type: none;",
    "                padding-left: 0;",
    "            \x7d",
    "            ",
    "            .toc li \x7b",
    "                margin: 5px 0;",
    "            \x7d",
    "            ",
    "            .toc a \x7b",
    "                text-decoration: none;",
    "                color: #3498db;",
    "            \x7d",
    "            ",
    "            .toc a:hover \x7b",
    "                text-decoration: underline;",
    "            \x7d",
    "            ",
    "            @media print \x7b",
    "                body \x7b",
    "                    margin: 20px;",
    "                \x7d",
    "                ",
    "                h1, h2, h3, h4 \x7b",
    "                    page-break-after: avoid;",
    "                \x7d",
    "                ",
    "                pre, blockquote \x7b",
    "                    page-break-inside: avoid;",
    "                \x7d",
    "                ",
    "                table \x7b",
    "                    page-break-inside: avoid;",
    "                \x7d",
    "            \x7d"]

/-- The style rules of the simplified fallback template (`generate_pdf_report.create_simplified_pdf`). -/
def simplifiedCss : String :=
  String.intercalate "\n" [
    "            body \x7b font-family: Arial, sans-serif; margin: 40px; line-height: 1.6; \x7d",
    "            h1 \x7b color: #2c3e50; border-bottom: 2px solid #3498db; \x7d",
    "            h2 \x7b color: #34495e; border-bottom: 1px solid #ecf0f1; \x7d",
    "            code \x7b background-color: #f8f9fa; padding: 2px 4px; border-radius: 3px; \x7d",
    "            pre \x7b background-color: #f8f9fa; padding: 15px; border-radius: 5px; overflow-x: auto; \x7d",
    "            table \x7b border-collapse: collapse; width: 100%; margin: 20px 0; \x7d",
    "            th, td \x7b border: 1px solid #ddd; padding: 12px; text-align: left; \x7d",
    "            th \x7b background-color: #f2f2f2; \x7d"]

/-- The style rules of the standard template (`simple_pdf_generator.convert_markdown_to_html`). -/
def standardCss : String :=
  String.intercalate "\n" [
    "            @page \x7b",
    "                size: A4;",
    "                margin: 2.5cm;",
    "            \x7d",
    "            ",
    "            body \x7b",
    "                font-family: \x27Times New Roman\x27, serif;",
    "                line-height: 1.6;",
    "                color: #333;",
    "                font-size: 12pt;",
    "            \x7d",
    "            ",
    "            h1 \x7b",
    "                color: #2c3e50;",
    "                border-bottom: 3px solid #3498db;",
    "                padding-bottom: 10px;",
    "                page-break-before: always;",
    "                font-size: 18pt;",
    "                margin-top: 0;",
    "            \x7d",
    "            ",
    "            h1:first-child \x7b",
    "                page-break-before: auto;",
    "            \x7d",
    "            ",
    "            h2 \x7b",
    "                color: #34495e;",
    "                border-bottom: 2px solid #ecf0f1;",
    "                padding-bottom: 5px;",
    "                margin-top: 30px;",
    "                font-size: 16pt;",
    "            \x7d",
    "            ",
    "            h3 \x7b",
    "                color: #7f8c8d;",
    "                margin-top: 25px;",
    "                font-size: 14pt;",
    "            \x7d",
    "            ",
    "            h4 \x7b",
    "                color: #95a5a6;",
    "                margin-top: 20px;",
    "                font-size: 13pt;",
    "            \x7d",
    "            ",
    "            code \x7b",
    "                background-color: #f8f9fa;",
    "                border: 1px solid #e9ecef;",
    "                border-radius: 3px;",
    "                padding: 2px 4px;",
    "                font-family: \x27Courier New\x27, monospace;",
    "                font-size: 10pt;",
    "            \x7d",
    "            ",
    "            pre \x7b",
    "                background-color: #f8f9fa;",
    "                border: 1px solid #e9ecef;",
    "                border-radius: 5px;",
    "                padding: 15px;",
    "                overflow-x: auto;",
    "                margin: 15px 0;",
    "                font-family: \x27Courier New\x27, monospace;",
    "                font-size: 10pt;",
    "                page-break-inside: avoid;",
    "            \x7d",
    "            ",
    "            pre code \x7b",
    "                background: none;",
    "                border: none;",
    "                padding: 0;",
    "            \x7d",
    "            ",
    "            table \x7b",
    "                border-collapse: collapse;",
    "                width: 100%;",
    "                margin: 20px 0;",
    "                font-size: 11pt;",
    "                page-break-inside: avoid;",
    "            \x7d",
    "            ",
    "            th, td \x7b",
    "                border: 1px solid #ddd;",
    "                padding: 8px;",
    "                text-align: left;",
    "            \x7d",
    "            ",
    "            th \x7b",
    "                background-color: #f2f2f2;",
    "                font-weight: bold;",
    "            \x7d",
    "            ",
    "            tr:nth-child(even) \x7b",
    "                background-color: #f9f9f9;",
    "            \x7d",
    "            ",
    "            .algorithm-complexity \x7b",
    "                background-color: #e8f5e8;",
    "                border-left: 4px solid #27ae60;",
    "                padding: 10px;",
    "                margin: 10px 0;",
    "                page-break-inside: avoid;",
    "            \x7d",
    "            ",
    "            .code-explanation \x7b",
    "                background-color: #fff3cd;",
    "                border-left: 4px solid #ffc107;",
    "                padding: 10px;",
    "                margin: 10px 0;",
    "                page-break-inside: avoid;",
    "            \x7d",
    "            ",
    "            .performance-metric \x7b",
    "                background-color: #d1ecf1;",
    "                border-left: 4px solid #17a2b8;",
    "                padding: 10px;",
    "                margin: 10px 0;",
    "                page-break-inside: avoid;",
    "            \x7d",
    "            ",
    "            ul, ol \x7b",
    "                margin: 15px 0;",
    "                padding-left: 30px;",
    "            \x7d",
    "            ",
    "            li \x7b",
    "                margin: 5px 0;",
    "            \x7d",
    "            ",
    "            blockquote \x7b",
    "                border-left: 4px solid #3498db;",
    "                margin: 20px 0;",
    "                padding: 10px 20px;",
    "                background-color: #f8f9fa;",
    "                page-break-inside: avoid;",
    "            \x7d",
    "            ",
    "            .toc \x7b",
    "                background-color: #f8f9fa;",
    "                border: 1px solid #e9ecef;",
    "                border-radius: 5px;",
    "                padding: 20px;",
    "                margin: 20px 0;",
    "                page-break-inside: avoid;",
    "            \x7d",
    "            ",
    "            .toc h2 \x7b",
    "                margin-top: 0;",
    "                color: #2c3e50;",
    "            \x7d",
    "            ",
    "            .toc ul \x7b",
    "                list-style-type: none;",
    "                padding-left: 0;",
    "            \x7d",
    "            ",
    "            .toc li \x7b",
    "                margin: 5px 0;",
    "            \x7d",
    "            ",
    "            .toc a \x7b",
    "                text-decoration: none;",
    "                color: #3498db;",
    "            \x7d",
    "            ",
    "            .toc a:hover \x7b",
    "                text-decoration: underline;",
    "            \x7d",
    "            ",
    "            .page-break \x7b",
    "                page-break-before: always;",
    "            \x7d",
    "            ",
    "            .no-break \x7b",
    "                page-break-inside: avoid;",
    "            \x7d",
    "            ",
    "            @media print \x7b",
    "                body \x7b",
    "                    margin: 0;",
    "                \x7d",
    "                ",
    "                h1, h2, h3, h4 \x7b",
    "                    page-break-after: avoid;",
    "                \x7d",
    "                ",
    "                pre, blockquote \x7b",
    "                    page-break-inside: avoid;",
    "                \x7d",
    "                ",
    "                table \x7b",
    "                    page-break-inside: avoid;",
    "                \x7d",
    "            \x7d"]

/-- The style rules of the print-optimized template (`simple_pdf_generator.create_simple_html`). -/
def printCss : String :=
  String.intercalate "\n" [
    "            @media print \x7b",
    "                @page \x7b",
    "                    size: A4;",
    "                    margin: 2cm;",
    "                \x7d",
    "                ",
    "                body \x7b",
    "                    font-family: \x27Times New Roman\x27, serif;",
    "                    font-size: 12pt;",
    "                    line-height: 1.5;",
    "                    color: #000;",
    "                \x7d",
    "                ",
    "                h1 \x7b",
    "                    font-size: 18pt;",
    "                    color: #000;",
    "                    border-bottom: 2px solid #000;",
    "                    page-break-before: always;",
    "                    margin-top: 0;",
    "                \x7d",
    "                ",
    "                h1:first-child \x7b",
    "                    page-break-before: auto;",
    "                \x7d",
    "                ",
    "                h2 \x7b",
    "                    font-size: 16pt;",
    "                    color: #000;",
    "                    border-bottom: 1px solid #000;",
    "                    margin-top: 20pt;",
    "                \x7d",
    "                ",
    "                h3 \x7b",
    "                    font-size: 14pt;",
    "                    color: #000;",
    "                    margin-top: 15pt;",
    "                \x7d",
    "                ",
    "                h4 \x7b",
    "                    font-size: 13pt;",
    "                    color: #000;",
    "                    margin-top: 10pt;",
    "                \x7d",
    "                ",
    "                code \x7b",
    "                    font-family: \x27Courier New\x27, monospace;",
    "                    font-size: 10pt;",
    "                    background-color: #f5f5f5;",
    "                    padding: 1px 3px;",
    "                \x7d",
    "                ",
    "                pre \x7b",
    "                    font-family: \x27Courier New\x27, monospace;",
    "                    font-size: 9pt;",
    "                    background-color: #f5f5f5;",
    "                    padding: 10pt;",
    "                    border: 1px solid #ccc;",
    "                    page-break-inside: avoid;",
    "                    overflow-x: auto;",
    "                \x7d",
    "                ",
    "                table \x7b",
    "                    border-collapse: collapse;",
    "                    width: 100%;",
    "                    font-size: 10pt;",
    "                    page-break-inside: avoid;",
    "                \x7d",
    "                ",
    "                th, td \x7b",
    "                    border: 1px solid #000;",
    "                    padding: 5pt;",
    "                    text-align: left;",
    "                \x7d",
    "                ",
    "                th \x7b",
    "                    background-color: #f0f0f0;",
    "                    font-weight: bold;",
    "                \x7d",
    "                ",
    "                ul, ol \x7b",
    "                    margin: 10pt 0;",
    "                    padding-left: 20pt;",
    "                \x7d",
    "                ",
    "                li \x7b",
    "                    margin: 3pt 0;",
    "                \x7d",
    "                ",
    "                blockquote \x7b",
    "                    border-left: 3px solid #000;",
    "                    margin: 10pt 0;",
    "                    padding: 5pt 10pt;",
    "                    background-color: #f9f9f9;",
    "                \x7d",
    "            \x7d",
    "            ",
    "            @media screen \x7b",
    "                body \x7b",
    "                    font-family: Arial, sans-serif;",
    "                    max-width: 800px;",
    "                    margin: 0 auto;",
    "                    padding: 20px;",
    "                    line-height: 1.6;",
    "                \x7d",
    "                ",
    "                h1 \x7b",
    "                    color: #2c3e50;",
    "                    border-bottom: 3px solid #3498db;",
    "                \x7d",
    "                ",
    "                h2 \x7b",
    "                    color: #34495e;",
    "                    border-bottom: 2px solid #ecf0f1;",
    "                \x7d",
    "                ",
    "                code \x7b",
    "                    background-color: #f8f9fa;",
    "                    padding: 2px 4px;",
    "                    border-radius: 3px;",
    "                \x7d",
    "                ",
    "                pre \x7b",
    "                    background-color: #f8f9fa;",
    "                    padding: 15px;",
    "                    border-radius: 5px;",
    "                    overflow-x: auto;",
    "                \x7d",
    "                ",
    "                table \x7b",
    "                    border-collapse: collapse;",
    "                    width: 100%;",
    "                \x7d",
    "                ",
    "                th, td \x7b",
    "                    border: 1px solid #ddd;",
    "                    padding: 8px;",
    "                    text-align: left;",
    "                \x7d",
    "                ",
    "                th \x7b",
    "                    background-color: #f2f2f2;",
    "                \x7d",
    "            \x7d"]

/-- The `html_document` f-string of `generate_pdf_report.convert_markdown_to_pdf` before the `\x7bhtml\x7d` interpolation point: the shared head lines, this template\x27s style rules, and the shared lines down to the point where the rendered Markdown body is inserted. -/
def pdfTemplateLead : String := docHead ++ "\n" ++ pdfCss ++ "\n" ++ docMid

/-- The `html_document` f-string of `generate_pdf_report.create_simplified_pdf` before the `\x7bhtml\x7d` interpolation point: the shared head lines, this template\x27s style rules, and the shared lines down to the point where the rendered Markdown body is inserted. -/
def simplifiedTemplateLead : String := docHead ++ "\n" ++ simplifiedCss ++ "\n" ++ docMid

/-- The `html_document` f-string of `simple_pdf_generator.convert_markdown_to_html` before the `\x7bhtml\x7d` interpolation point: the shared head lines, this template\x27s style rules, and the shared lines down to the point where the rendered Markdown body is inserted. -/
def standardTemplateLead : String := docHead ++ "\n" ++ standardCss ++ "\n" ++ docMid

/-- The `html_document` f-string of `simple_pdf_generator.create_simple_html` before the `\x7bhtml\x7d` interpolation point: the shared head lines, this template\x27s style rules, and the shared lines down to the point where the rendered Markdown body is inserted. -/
def printTemplateLead : String := docHead ++ "\n" ++ printCss ++ "\n" ++ docMid


/-- Count of (possibly overlapping) occurrences of the pattern in the character list. -/
def occList (pat : List Char) : List Char → Nat
  | [] => 0
  | c :: rest => (if pat.isPrefixOf (c :: rest) then 1 else 0) + occList pat rest

/-- Count of occurrences of the pattern string in the string s. -/
def countSubstr (s pat : String) : Nat := occList pat.toList s.toList

/-- Split a list of characters at every occurrence of the delimiter. -/
def splitAtChar (d : Char) : List Char → List (List Char)
  | [] => [[]]
  | c :: rest =>
    let r := splitAtChar d rest
    if c = d then [] :: r
    else match r with
      | [] => [[c]]
      | l :: ls => (c :: l) :: ls

def isBlankChar (c : Char) : Bool := c = Char.ofNat 32 || c = Char.ofNat 9

/-- Strip blanks from both ends of a line of characters. -/
def trimChars (cs : List Char) : List Char :=
  ((cs.dropWhile isBlankChar).reverse.dropWhile isBlankChar).reverse

/-- Group lines into blocks separated by blank lines. -/
def addLine (l : List Char) (bs : List (List (List Char))) : List (List (List Char)) :=
  if (trimChars l).isEmpty then [] :: bs
  else match bs with
    | [] => [[l]]
    | b :: rest => (l :: b) :: rest

def blocksOf (ls : List (List Char)) : List (List (List Char)) :=
  (ls.foldr addLine []).filter (fun b => ¬ b.isEmpty)

def dropEmptyEnds (xs : List (List Char)) : List (List Char) :=
  ((xs.dropWhile List.isEmpty).reverse.dropWhile List.isEmpty).reverse

/-- The cells of a Markdown table row: split at the pipes, trim each field, discard the
empty outer fields. -/
def splitCells (line : List Char) : List (List Char) :=
  dropEmptyEnds ((splitAtChar (Char.ofNat 124) line).map trimChars)

def isSepCell (s : List Char) : Bool :=
  ¬ s.isEmpty && s.all (fun c => c = '-' || c = ':')

def isTableSep (line : List Char) : Bool :=
  ¬ (splitCells line).isEmpty && (splitCells line).all isSepCell

def cellHtml (tag : String) (c : List Char) : String :=
  "<" ++ tag ++ ">" ++ c.asString ++ "</" ++ tag ++ ">\n"

def rowHtml (tag : String) (cells : List (List Char)) : String :=
  "<tr>\n" ++ String.join (cells.map (cellHtml tag)) ++ "</tr>"

def tableHtml (header : List (List Char)) (rows : List (List (List Char))) : String :=
  "<table>\n<thead>\n" ++ rowHtml "th" header ++ "\n</thead>\n<tbody>\n"
    ++ String.intercalate "\n" (rows.map (rowHtml "td")) ++ "\n</tbody>\n</table>"

def headingHtml (l : List Char) : Option String :=
  if ("#### ".toList).isPrefixOf l then some ("<h4>" ++ (trimChars (l.drop 5)).asString ++ "</h4>")
  else if ("### ".toList).isPrefixOf l then some ("<h3>" ++ (trimChars (l.drop 4)).asString ++ "</h3>")
  else if ("## ".toList).isPrefixOf l then some ("<h2>" ++ (trimChars (l.drop 3)).asString ++ "</h2>")
  else if ("# ".toList).isPrefixOf l then some ("<h1>" ++ (trimChars (l.drop 2)).asString ++ "</h1>")
  else none

def isFence (l : List Char) : Bool := ("```".toList).isPrefixOf l

def fencedHtml (ls : List (List Char)) : String :=
  "<pre><code>" ++ String.intercalate "\n" ((ls.filter (fun l => ¬ isFence l)).map List.asString)
    ++ "</code></pre>"

def startsWithPipe (l : List Char) : Bool := ("|".toList).isPrefixOf l

/-- Modelled from the spec: render one block of Markdown lines (heading, pipe table,
fenced code block, or paragraph). -/
def renderBlock (b : List (List Char)) : String :=
  match b with
  | [] => ""
  | [l] =>
    match headingHtml l with
    | some h => h
    | none => "<p>" ++ l.asString ++ "</p>"
  | l :: sep :: rows =>
    match headingHtml l with
    | some h => h ++ "\n<p>" ++ String.intercalate "\n" ((sep :: rows).map List.asString) ++ "</p>"
    | none =>
      if isFence l then fencedHtml (sep :: rows)
      else if startsWithPipe l && isTableSep sep && rows.all startsWithPipe then
        tableHtml (splitCells l) (rows.map splitCells)
      else "<p>" ++ String.intercalate "\n" ((l :: sep :: rows).map List.asString) ++ "</p>"

/-- Modelled from the spec: the external Markdown-to-HTML transform (the third-party
`markdown.markdown` library call, which is not part of this repository), restricted to the
constructs the spec names — headings, pipe tables, fenced code blocks and paragraphs;
interface `text -> html`. -/
def mdTransformModel (text : String) : String :=
  String.intercalate "\n" ((blocksOf (splitAtChar (Char.ofNat 10) text.toList)).map renderBlock)

/-- A filesystem: maps a path to the content of the file there, if one exists. -/
abbrev FS : Type := String → Option String

/-- Writing a file: the new content replaces whatever was at the path. -/
def FS.write (fs : FS) (p c : String) : FS := fun q => if q = p then some c else fs q

/-- The fixed source path `IB_CS_HL_Criterion_C_Report.md` used by every operation of both
scripts. -/
def srcPath : String := "IB_CS_HL_Criterion_C_Report.md"

/-- The PDF output path of `generate_pdf_report.convert_markdown_to_pdf`. -/
def pdfPath : String := "IB_CS_HL_Criterion_C_Report.pdf"

/-- The HTML output path of `generate_pdf_report.create_simplified_pdf` and of
`simple_pdf_generator.convert_markdown_to_html`. -/
def htmlPath : String := "IB_CS_HL_Criterion_C_Report.html"

/-- The print-optimized HTML output path of `simple_pdf_generator.create_simple_html`. -/
def printHtmlPath : String := "IB_CS_HL_Criterion_C_Report_Print.html"

/-- The extension list passed to `markdown.markdown` in
`generate_pdf_report.convert_markdown_to_pdf` (lines 26 to 31). -/
def extsConvertPdf : List String :=
  ["markdown.extensions.tables", "markdown.extensions.fenced_code",
   "markdown.extensions.toc", "markdown.extensions.codehilite"]

/-- The extension list passed to `markdown.markdown` in
`generate_pdf_report.create_simplified_pdf` (lines 262 to 267). -/
def extsCreateSimplified : List String :=
  ["markdown.extensions.tables", "markdown.extensions.fenced_code",
   "markdown.extensions.toc", "markdown.extensions.codehilite"]

/-- The extension list passed to `markdown.markdown` in
`simple_pdf_generator.convert_markdown_to_html` (lines 25 to 30). -/
def extsConvertHtml : List String :=
  ["markdown.extensions.tables", "markdown.extensions.fenced_code",
   "markdown.extensions.toc", "markdown.extensions.codehilite"]

/-- The extension list passed to `markdown.markdown` in
`simple_pdf_generator.create_simple_html` (lines 261 to 266). -/
def extsCreateSimpleHtml : List String :=
  ["markdown.extensions.tables", "markdown.extensions.fenced_code",
   "markdown.extensions.toc", "markdown.extensions.codehilite"]

/-- The extension list common to the four call sites, written once. -/
def mdExtensions : List String :=
  ["markdown.extensions.tables", "markdown.extensions.fenced_code",
   "markdown.extensions.toc", "markdown.extensions.codehilite"]

/-- The external collaborators of the two scripts, taken as parameters of the model:
`md` is `markdown.markdown` (text and extension list to HTML), and `renderPdf` is
`pdfkit.from_string` on the given document, producing PDF bytes or raising (an
`Except.error` carries the exception text). -/
structure Env where
  md : String → List String → String
  renderPdf : String → Except String String

/-- The style variants of the spec: the PDF-oriented template of
`generate_pdf_report.convert_markdown_to_pdf`, the simplified fallback template of
`generate_pdf_report.create_simplified_pdf`, the standard template of
`simple_pdf_generator.convert_markdown_to_html`, and the print-optimized template of
`simple_pdf_generator.create_simple_html`. -/
inductive StyleVariant where
  | pdfOriented
  | simplified
  | standard
  | printOptimized

def templateLeadOf : StyleVariant → String
  | StyleVariant.pdfOriented => pdfTemplateLead
  | StyleVariant.simplified => simplifiedTemplateLead
  | StyleVariant.standard => standardTemplateLead
  | StyleVariant.printOptimized => printTemplateLead

def extsOf : StyleVariant → List String
  | StyleVariant.pdfOriented => extsConvertPdf
  | StyleVariant.simplified => extsCreateSimplified
  | StyleVariant.standard => extsConvertHtml
  | StyleVariant.printOptimized => extsCreateSimpleHtml

/-- The spec operation `renderHtml(text, styleVariant)` as both scripts realize it: apply the
Markdown transform to the source text, then embed the result in the variant template. -/
def renderHtml (env : Env) (text : String) (v : StyleVariant) : String :=
  templateLeadOf v ++ env.md text (extsOf v) ++ docSuffix

/-- The PDF options dict passed to `pdfkit.from_string` in
`generate_pdf_report.convert_markdown_to_pdf` (a key with no value is `none`). -/
def pdfOptions : List (String × Option String) :=
  [("page-size", some "A4"), ("margin-top", some "1in"), ("margin-right", some "1in"),
   ("margin-bottom", some "1in"), ("margin-left", some "1in"), ("encoding", some "UTF-8"),
   ("no-outline", none), ("enable-local-file-access", none), ("print-media-type", none),
   ("dpi", some "300")]

/-- The state a script run threads along: the filesystem, the number of times the source
file has been opened and read, and the lines printed to standard output so far (one entry
per `print` call; a leading `\n` in an entry is the blank line the call emits first). -/
structure St where
  fs : FS
  reads : Nat
  out : List String

def msgSrcMissing : String := "Error: IB_CS_HL_Criterion_C_Report.md not found!"

def msgPdfSuccess : String :=
  "✅ PDF report generated successfully: IB_CS_HL_Criterion_C_Report.pdf"

def msgPdfFailure (e : String) : List String :=
  ["❌ Error generating PDF: " ++ e,
   "\nNote: You may need to install wkhtmltopdf:",
   "  - macOS: brew install wkhtmltopdf",
   "  - Ubuntu: sudo apt-get install wkhtmltopdf",
   "  - Windows: Download from https://wkhtmltopdf.org/downloads.html"]

def msgSimplifiedSuccess : List String :=
  ["✅ HTML report generated: IB_CS_HL_Criterion_C_Report.html",
   "   You can open this file in a web browser and print to PDF"]

def msgGenStart : String := "🔄 Generating IB Computer Science HL Criterion C Report..."

def msgPdfBranch : List String :=
  ["\n📄 Report successfully converted to PDF!",
   "   File: IB_CS_HL_Criterion_C_Report.pdf"]

def msgFallback : String := "\n⚠️  PDF generation failed, creating HTML version instead..."

def msgHtmlCreated : String := "\n📄 HTML report created!"

def msgHtmlBranch : List String :=
  [msgHtmlCreated,
   "   File: IB_CS_HL_Criterion_C_Report.html",
   "   You can open this in a browser and print to PDF"]

def msgComplete : String := "\n✨ Report generation complete!"

def msgStdHtmlSuccess : String := "✅ HTML report generated: IB_CS_HL_Criterion_C_Report.html"

def msgPrintHtmlSuccess : String :=
  "✅ Print-optimized HTML report generated: IB_CS_HL_Criterion_C_Report_Print.html"

def msgStdCreated : String := "✅ Standard HTML report created!"

def msgPrintCreated : String := "✅ Print-optimized HTML report created!"

def msgSimpleFooter : List String :=
  ["\n📄 Reports generated successfully!",
   "   Files created:",
   "   - IB_CS_HL_Criterion_C_Report.html (standard version)",
   "   - IB_CS_HL_Criterion_C_Report_Print.html (print-optimized)",
   "\n💡 To convert to PDF:",
   "   1. Open either HTML file in a web browser",
   "   2. Press Ctrl+P (or Cmd+P on Mac)",
   "   3. Select \x27Save as PDF\x27 as destination",
   "   4. Choose \x27More settings\x27 and set margins to \x27Minimum\x27",
   "   5. Click \x27Save\x27"]

/-- `generate_pdf_report.convert_markdown_to_pdf`: if the source file is missing, report and
return `False`; otherwise read it, transform it, build the PDF-oriented document, and hand it
to `pdfkit.from_string`, which writes the PDF file; any renderer exception is caught, the
error and the install hints are printed, and `False` is returned. -/
def convert_markdown_to_pdf (env : Env) (st : St) : Bool × St :=
  match st.fs srcPath with
  | none => (false, { st with out := st.out ++ [msgSrcMissing] })
  | some markdown_content =>
    let st1 : St := { st with reads := st.reads + 1 }
    let html := env.md markdown_content extsConvertPdf
    let html_document := pdfTemplateLead ++ html ++ docSuffix
    match env.renderPdf html_document with
    | Except.ok pdfBytes =>
      (true, { st1 with fs := st1.fs.write pdfPath pdfBytes, out := st1.out ++ [msgPdfSuccess] })
    | Except.error e =>
      (false, { st1 with out := st1.out ++ msgPdfFailure e })

/-- `generate_pdf_report.create_simplified_pdf`: if the source file is missing, report and
return `False`; otherwise read it, transform it, wrap it in the simplified template, write
the HTML artifact and return `True`. -/
def create_simplified_pdf (env : Env) (st : St) : Bool × St :=
  match st.fs srcPath with
  | none => (false, { st with out := st.out ++ [msgSrcMissing] })
  | some markdown_content =>
    let st1 : St := { st with reads := st.reads + 1 }
    let html := env.md markdown_content extsCreateSimplified
    let html_document := simplifiedTemplateLead ++ html ++ docSuffix
    (true, { st1 with fs := st1.fs.write htmlPath html_document,
                      out := st1.out ++ msgSimplifiedSuccess })

/-- The body of the `if __name__ == "__main__"` block of `generate_pdf_report.py`: try the
PDF conversion; on `False` print the fallback notice, run `create_simplified_pdf` (its result
is ignored) and print the HTML-created messages; finish with the completion message. -/
def generate_report_run (env : Env) (fs0 : FS) : St :=
  let st0 : St := ⟨fs0, 0, [msgGenStart]⟩
  let r1 := convert_markdown_to_pdf env st0
  if r1.1 then
    { r1.2 with out := r1.2.out ++ msgPdfBranch ++ [msgComplete] }
  else
    let st2 : St := { r1.2 with out := r1.2.out ++ [msgFallback] }
    let r2 := create_simplified_pdf env st2
    { r2.2 with out := r2.2.out ++ msgHtmlBranch ++ [msgComplete] }

/-- The `generate_pdf_report.py` process: the `__main__` block together with its exit status;
the script always falls off the end of the block, so the interpreter exits with status 0. -/
def generate_pdf_report_main (env : Env) (fs0 : FS) : St × Nat :=
  (generate_report_run env fs0, 0)

/-- `simple_pdf_generator.convert_markdown_to_html`: if the source file is missing, report
and return `False`; otherwise read it, transform it, wrap it in the standard template, write
the HTML artifact and return `True`. -/
def convert_markdown_to_html (env : Env) (st : St) : Bool × St :=
  match st.fs srcPath with
  | none => (false, { st with out := st.out ++ [msgSrcMissing] })
  | some markdown_content =>
    let st1 : St := { st with reads := st.reads + 1 }
    let html := env.md markdown_content extsConvertHtml
    let html_document := standardTemplateLead ++ html ++ docSuffix
    (true, { st1 with fs := st1.fs.write htmlPath html_document,
                      out := st1.out ++ [msgStdHtmlSuccess] })

/-- `simple_pdf_generator.create_simple_html`: if the source file is missing, report and
return `False`; otherwise read it, transform it, wrap it in the print-optimized template,
write the print HTML artifact and return `True`. -/
def create_simple_html (env : Env) (st : St) : Bool × St :=
  match st.fs srcPath with
  | none => (false, { st with out := st.out ++ [msgSrcMissing] })
  | some markdown_content =>
    let st1 : St := { st with reads := st.reads + 1 }
    let html := env.md markdown_content extsCreateSimpleHtml
    let html_document := printTemplateLead ++ html ++ docSuffix
    (true, { st1 with fs := st1.fs.write printHtmlPath html_document,
                      out := st1.out ++ [msgPrintHtmlSuccess] })

/-- The body of the `if __name__ == "__main__"` block of `simple_pdf_generator.py`: run both
conversions, printing a confirmation after each successful one, then the footer. -/
def simple_generator_run (env : Env) (fs0 : FS) : St :=
  let st0 : St := ⟨fs0, 0, [msgGenStart]⟩
  let r1 := convert_markdown_to_html env st0
  let st1 := if r1.1 then { r1.2 with out := r1.2.out ++ [msgStdCreated] } else r1.2
  let r2 := create_simple_html env st1
  let st2 := if r2.1 then { r2.2 with out := r2.2.out ++ [msgPrintCreated] } else r2.2
  { st2 with out := st2.out ++ msgSimpleFooter ++ [msgComplete] }

/-- The `simple_pdf_generator.py` process: the `__main__` block together with its exit
status; the script always falls off the end of the block, so the interpreter exits with
status 0. -/
def simple_pdf_generator_main (env : Env) (fs0 : FS) : St × Nat :=
  (simple_generator_run env fs0, 0)

/-- A filesystem together with the set of file handles currently held open. -/
structure IOState where
  fs : FS
  openHandles : List String

/-- The spec operation `writeArtifact(html, path)` as both scripts realize it:
`with open(path, "w", encoding="utf-8") as f: f.write(html)` — the handle is acquired at the
head of the `with` block, the written content replaces whatever the file held, and the
handle is released when the block is left. -/
def writeArtifact (st : IOState) (html path : String) : IOState :=
  let acquired : IOState := { st with openHandles := path :: st.openHandles }
  let written : IOState := { acquired with fs := acquired.fs.write path html }
  { written with openHandles := st.openHandles }

/-- A concrete environment for evaluating the model: the spec-modelled Markdown transform,
and a PDF renderer that is unavailable (every call raises). -/
def envModel : Env :=
  { md := fun text _ => mdTransformModel text,
    renderPdf := fun _ => Except.error "No wkhtmltopdf executable found" }

/-- A concrete environment whose PDF renderer succeeds. -/
def envPdfOk : Env :=
  { md := fun text _ => mdTransformModel text,
    renderPdf := fun doc => Except.ok ("%PDF " ++ doc) }

/-- The worked example input of the spec. -/
def exampleInput : String := "# Title\n\n| a | b |\n|---|---|\n|1|2|\n"

/-- A concrete filesystem holding the example input at the source path and nothing else. -/
def fsWithSource : FS := fun p => if p = srcPath then some exampleInput else none

/-- A concrete filesystem with no files at all. -/
def fsEmpty : FS := fun _ => none

/-- A concrete state for evaluating `writeArtifact`: no handle is open and the HTML artifact
path already holds stale content. -/
def ioStateExample : IOState :=
  { fs := fun p => if p = htmlPath then some "stale artifact" else none, openHandles := [] }

theorem convert_markdown_to_pdf_missing (env : Env) (st : St) (h : st.fs srcPath = none) :
    convert_markdown_to_pdf env st = (false, { st with out := st.out ++ [msgSrcMissing] }) := by
  unfold convert_markdown_to_pdf
  rw [h]

theorem convert_markdown_to_pdf_err (env : Env) (st : St) (content e : String)
    (h : st.fs srcPath = some content)
    (hr : env.renderPdf (pdfTemplateLead ++ env.md content extsConvertPdf ++ docSuffix)
        = Except.error e) :
    convert_markdown_to_pdf env st
      = (false, { st with reads := st.reads + 1, out := st.out ++ msgPdfFailure e }) := by
  unfold convert_markdown_to_pdf
  rw [h]
  simp only [hr]

theorem convert_markdown_to_pdf_ok (env : Env) (st : St) (content pdfBytes : String)
    (h : st.fs srcPath = some content)
    (hr : env.renderPdf (pdfTemplateLead ++ env.md content extsConvertPdf ++ docSuffix)
        = Except.ok pdfBytes) :
    convert_markdown_to_pdf env st
      = (true, { fs := st.fs.write pdfPath pdfBytes, reads := st.reads + 1,
                 out := st.out ++ [msgPdfSuccess] }) := by
  unfold convert_markdown_to_pdf
  rw [h]
  simp only [hr]

theorem create_simplified_pdf_missing (env : Env) (st : St) (h : st.fs srcPath = none) :
    create_simplified_pdf env st = (false, { st with out := st.out ++ [msgSrcMissing] }) := by
  unfold create_simplified_pdf
  rw [h]

theorem create_simplified_pdf_present (env : Env) (st : St) (content : String)
    (h : st.fs srcPath = some content) :
    create_simplified_pdf env st
      = (true, { fs := st.fs.write htmlPath
                   (simplifiedTemplateLead ++ env.md content extsCreateSimplified ++ docSuffix),
                 reads := st.reads + 1, out := st.out ++ msgSimplifiedSuccess }) := by
  unfold create_simplified_pdf
  rw [h]

theorem convert_markdown_to_html_missing (env : Env) (st : St) (h : st.fs srcPath = none) :
    convert_markdown_to_html env st = (false, { st with out := st.out ++ [msgSrcMissing] }) := by
  unfold convert_markdown_to_html
  rw [h]

theorem convert_markdown_to_html_present (env : Env) (st : St) (content : String)
    (h : st.fs srcPath = some content) :
    convert_markdown_to_html env st
      = (true, { fs := st.fs.write htmlPath
                   (standardTemplateLead ++ env.md content extsConvertHtml ++ docSuffix),
                 reads := st.reads + 1, out := st.out ++ [msgStdHtmlSuccess] }) := by
  unfold convert_markdown_to_html
  rw [h]

theorem create_simple_html_missing (env : Env) (st : St) (h : st.fs srcPath = none) :
    create_simple_html env st = (false, { st with out := st.out ++ [msgSrcMissing] }) := by
  unfold create_simple_html
  rw [h]

theorem create_simple_html_present (env : Env) (st : St) (content : String)
    (h : st.fs srcPath = some content) :
    create_simple_html env st
      = (true, { fs := st.fs.write printHtmlPath
                   (printTemplateLead ++ env.md content extsCreateSimpleHtml ++ docSuffix),
                 reads := st.reads + 1, out := st.out ++ [msgPrintHtmlSuccess] }) := by
  unfold create_simple_html
  rw [h]

theorem generate_report_run_missing (env : Env) (fs : FS) (hsrc : fs srcPath = none) :
    generate_report_run env fs
      = ⟨fs, 0, [msgGenStart, msgSrcMissing, msgFallback, msgSrcMissing]
            ++ msgHtmlBranch ++ [msgComplete]⟩ := by
  simp [generate_report_run, convert_markdown_to_pdf_missing,
    create_simplified_pdf_missing, hsrc]

theorem generate_report_run_err (env : Env) (fs : FS) (content e : String)
    (hsrc : fs srcPath = some content)
    (hrend : env.renderPdf (pdfTemplateLead ++ env.md content extsConvertPdf ++ docSuffix)
        = Except.error e) :
    generate_report_run env fs
      = ⟨fs.write htmlPath
            (simplifiedTemplateLead ++ env.md content extsCreateSimplified ++ docSuffix), 2,
          [msgGenStart] ++ msgPdfFailure e ++ [msgFallback] ++ msgSimplifiedSuccess
            ++ msgHtmlBranch ++ [msgComplete]⟩ := by
  simp [generate_report_run, convert_markdown_to_pdf_err,
    create_simplified_pdf_present, hsrc, hrend]

theorem generate_report_run_ok (env : Env) (fs : FS) (content pdfBytes : String)
    (hsrc : fs srcPath = some content)
    (hrend : env.renderPdf (pdfTemplateLead ++ env.md content extsConvertPdf ++ docSuffix)
        = Except.ok pdfBytes) :
    generate_report_run env fs
      = ⟨fs.write pdfPath pdfBytes, 1,
          [msgGenStart, msgPdfSuccess] ++ msgPdfBranch ++ [msgComplete]⟩ := by
  simp [generate_report_run, convert_markdown_to_pdf_ok, hsrc, hrend]

theorem simple_generator_run_missing (env : Env) (fs : FS) (hsrc : fs srcPath = none) :
    simple_generator_run env fs
      = ⟨fs, 0, [msgGenStart, msgSrcMissing, msgSrcMissing]
            ++ msgSimpleFooter ++ [msgComplete]⟩ := by
  simp [simple_generator_run, convert_markdown_to_html_missing,
    create_simple_html_missing, hsrc]

theorem simple_generator_run_present (env : Env) (fs : FS) (content : String)
    (hsrc : fs srcPath = some content)
    (hsrc2 : (fs.write htmlPath
        (standardTemplateLead ++ env.md content extsConvertHtml ++ docSuffix)) srcPath
      = some content) :
    simple_generator_run env fs
      = ⟨(fs.write htmlPath
              (standardTemplateLead ++ env.md content extsConvertHtml ++ docSuffix)).write
            printHtmlPath
            (printTemplateLead ++ env.md content extsCreateSimpleHtml ++ docSuffix), 2,
          [msgGenStart, msgStdHtmlSuccess, msgStdCreated, msgPrintHtmlSuccess, msgPrintCreated]
            ++ msgSimpleFooter ++ [msgComplete]⟩ := by
  simp [simple_generator_run, convert_markdown_to_html_present,
    create_simple_html_present, hsrc, hsrc2]

theorem write_hit (fs : FS) (p c : String) : (fs.write p c) p = some c := by
  unfold FS.write
  rw [if_pos rfl]

theorem write_keep (fs : FS) (p c q : String) (hne : q ≠ p) : (fs.write p c) q = fs q := by
  unfold FS.write
  rw [if_neg hne]

/-- C1: for every invocation of `generate_pdf_report.py` in which the source Markdown file
exists but the external PDF renderer is unavailable or errors, the program writes the HTML
artifact (the simplified-variant rendering of the source), leaves the PDF path untouched,
and prints the fallback notice. -/
theorem c1_renderer_error_falls_back_to_html (env : Env) (fs : FS) (content e : String)
    (hsrc : fs srcPath = some content)
    (hrend : env.renderPdf (renderHtml env content StyleVariant.pdfOriented) = Except.error e) :
    (generate_pdf_report_main env fs).1.fs htmlPath
        = some (renderHtml env content StyleVariant.simplified)
    ∧ (generate_pdf_report_main env fs).1.fs pdfPath = fs pdfPath
    ∧ msgFallback ∈ (generate_pdf_report_main env fs).1.out := by
  simp only [renderHtml, templateLeadOf, extsOf] at hrend
  have hrun := generate_report_run_err env fs content e hsrc hrend
  refine ⟨?_, ?_, ?_⟩
  · show (generate_report_run env fs).fs htmlPath = _
    rw [hrun]
    exact write_hit fs htmlPath
      (simplifiedTemplateLead ++ env.md content extsCreateSimplified ++ docSuffix)
  · show (generate_report_run env fs).fs pdfPath = fs pdfPath
    rw [hrun]
    exact write_keep fs htmlPath
      (simplifiedTemplateLead ++ env.md content extsCreateSimplified ++ docSuffix)
      pdfPath (by decide)
  · show msgFallback ∈ (generate_report_run env fs).out
    rw [hrun]
    simp

/-- C1 witness: with the example source present and the concrete unavailable renderer,
running `generate_pdf_report.py` yields the fallback HTML artifact, no PDF, and the
fallback notice. -/
theorem c1_witness :
    fsWithSource srcPath = some exampleInput
    ∧ envModel.renderPdf (renderHtml envModel exampleInput StyleVariant.pdfOriented)
        = Except.error "No wkhtmltopdf executable found"
    ∧ ((generate_pdf_report_main envModel fsWithSource).1.fs htmlPath
          = some (renderHtml envModel exampleInput StyleVariant.simplified)
        ∧ (generate_pdf_report_main envModel fsWithSource).1.fs pdfPath = fsWithSource pdfPath
        ∧ msgFallback ∈ (generate_pdf_report_main envModel fsWithSource).1.out) :=
  ⟨rfl, rfl,
    c1_renderer_error_falls_back_to_html envModel fsWithSource exampleInput
      "No wkhtmltopdf executable found" rfl rfl⟩

/-- C2: when the source Markdown file is absent, each of the four conversion operations
reports the missing file as a printed error, returns `False` without reading anything, and
writes nothing; a whole invocation of either script leaves the filesystem exactly as it was
— neither an HTML nor a PDF artifact is created — and the error is among the printed
lines. -/
theorem c2_missing_source_aborts (env : Env) (fs : FS) (st : St) (hsrc : fs srcPath = none)
    (hst : st = ⟨fs, 0, []⟩) :
    convert_markdown_to_pdf env st = (false, ⟨fs, 0, [msgSrcMissing]⟩)
    ∧ create_simplified_pdf env st = (false, ⟨fs, 0, [msgSrcMissing]⟩)
    ∧ convert_markdown_to_html env st = (false, ⟨fs, 0, [msgSrcMissing]⟩)
    ∧ create_simple_html env st = (false, ⟨fs, 0, [msgSrcMissing]⟩)
    ∧ (generate_pdf_report_main env fs).1.fs = fs
    ∧ (simple_pdf_generator_main env fs).1.fs = fs
    ∧ msgSrcMissing ∈ (generate_pdf_report_main env fs).1.out
    ∧ msgSrcMissing ∈ (simple_pdf_generator_main env fs).1.out := by
  subst hst
  have hg := generate_report_run_missing env fs hsrc
  have hs := simple_generator_run_missing env fs hsrc
  refine ⟨?_, ?_, ?_, ?_, ?_, ?_, ?_, ?_⟩
  · simpa using convert_markdown_to_pdf_missing env ⟨fs, 0, []⟩ hsrc
  · simpa using create_simplified_pdf_missing env ⟨fs, 0, []⟩ hsrc
  · simpa using convert_markdown_to_html_missing env ⟨fs, 0, []⟩ hsrc
  · simpa using create_simple_html_missing env ⟨fs, 0, []⟩ hsrc
  · show (generate_report_run env fs).fs = fs
    rw [hg]
  · show (simple_generator_run env fs).fs = fs
    rw [hs]
  · show msgSrcMissing ∈ (generate_report_run env fs).out
    rw [hg]
    simp
  · show msgSrcMissing ∈ (simple_generator_run env fs).out
    rw [hs]
    simp

/-- C2 witness: on the empty filesystem the operations abort with the printed error and no
file is created. -/
theorem c2_witness :
    fsEmpty srcPath = none
    ∧ (⟨fsEmpty, 0, []⟩ : St) = ⟨fsEmpty, 0, []⟩
    ∧ (convert_markdown_to_pdf envModel ⟨fsEmpty, 0, []⟩ = (false, ⟨fsEmpty, 0, [msgSrcMissing]⟩)
        ∧ create_simplified_pdf envModel ⟨fsEmpty, 0, []⟩ = (false, ⟨fsEmpty, 0, [msgSrcMissing]⟩)
        ∧ convert_markdown_to_html envModel ⟨fsEmpty, 0, []⟩
            = (false, ⟨fsEmpty, 0, [msgSrcMissing]⟩)
        ∧ create_simple_html envModel ⟨fsEmpty, 0, []⟩ = (false, ⟨fsEmpty, 0, [msgSrcMissing]⟩)
        ∧ (generate_pdf_report_main envModel fsEmpty).1.fs = fsEmpty
        ∧ (simple_pdf_generator_main envModel fsEmpty).1.fs = fsEmpty
        ∧ msgSrcMissing ∈ (generate_pdf_report_main envModel fsEmpty).1.out
        ∧ msgSrcMissing ∈ (simple_pdf_generator_main envModel fsEmpty).1.out) :=
  ⟨rfl, rfl, c2_missing_source_aborts envModel fsEmpty ⟨fsEmpty, 0, []⟩ rfl rfl⟩

/-- C3: `renderHtml` is a pure function of the source text and the style variant — two runs
on identical inputs give byte-identical output — and two whole-script runs on identical
filesystems write byte-identical HTML artifacts. -/
theorem c3_render_html_deterministic (env : Env) (t1 t2 : String) (v1 v2 : StyleVariant)
    (ht : t1 = t2) (hv : v1 = v2) :
    renderHtml env t1 v1 = renderHtml env t2 v2
    ∧ ∀ fs1 fs2 : FS, fs1 = fs2 →
        (simple_pdf_generator_main env fs1).1.fs htmlPath
          = (simple_pdf_generator_main env fs2).1.fs htmlPath := by
  subst ht
  subst hv
  exact ⟨rfl, fun fs1 fs2 h => by rw [h]⟩

/-- C3 witness: rendering the example input twice in the standard variant gives the same
bytes, and two runs on the same concrete filesystem agree on the written artifact. -/
theorem c3_witness :
    exampleInput = exampleInput
    ∧ StyleVariant.standard = StyleVariant.standard
    ∧ (renderHtml envModel exampleInput StyleVariant.standard
          = renderHtml envModel exampleInput StyleVariant.standard
        ∧ (simple_pdf_generator_main envModel fsWithSource).1.fs htmlPath
          = (simple_pdf_generator_main envModel fsWithSource).1.fs htmlPath) :=
  ⟨rfl, rfl,
    (c3_render_html_deterministic envModel exampleInput exampleInput StyleVariant.standard
        StyleVariant.standard rfl rfl).1,
    (c3_render_html_deterministic envModel exampleInput exampleInput StyleVariant.standard
        StyleVariant.standard rfl rfl).2 fsWithSource fsWithSource rfl⟩

/-- C4: for every source text, the standard and the print-optimized outputs are the shared
head, the variant style rules, the shared mid part, the transformed body, and the shared
tail — so they differ only in the embedded style rules, and the body placed inside `<body>`
is the same string in both. -/
theorem c4_variants_differ_only_in_style (env : Env) (t : String) :
    renderHtml env t StyleVariant.standard
      = docHead ++ "\n" ++ standardCss ++ "\n" ++ docMid
          ++ env.md t extsConvertHtml ++ docSuffix
    ∧ renderHtml env t StyleVariant.printOptimized
      = docHead ++ "\n" ++ printCss ++ "\n" ++ docMid
          ++ env.md t extsCreateSimpleHtml ++ docSuffix
    ∧ extsConvertHtml = extsCreateSimpleHtml
    ∧ env.md t extsConvertHtml = env.md t extsCreateSimpleHtml :=
  ⟨rfl, rfl, rfl, rfl⟩

set_option maxRecDepth 10000 in
/-- C5: on the spec's example input, the rendered output HTML holds exactly one
`<h1>Title</h1>` element and exactly one `<table>` element whose body consists of exactly
the one data row `1, 2`. -/
theorem c5_example_heading_and_table :
    countSubstr (renderHtml envModel exampleInput StyleVariant.simplified) "<h1>Title</h1>" = 1
    ∧ countSubstr (renderHtml envModel exampleInput StyleVariant.simplified) "<table>" = 1
    ∧ countSubstr (renderHtml envModel exampleInput StyleVariant.simplified) "<tbody>" = 1
    ∧ countSubstr (renderHtml envModel exampleInput StyleVariant.simplified)
        "<tbody>\n<tr>\n<td>1</td>\n<td>2</td>\n</tr>\n</tbody>" = 1 := by
  refine ⟨?_, ?_, ?_, ?_⟩ <;> decide

/-- C6: every invocation of either script's top-level entry point ends with the implicit
success exit status 0, whatever the filesystem holds and however the external renderer
behaves; failures are reported as printed lines — the missing source as an error message,
a renderer error by running the fallback — never through a distinct exit code. -/
theorem c6_exit_status_always_zero (env : Env) (fs : FS) (content e : String) :
    (generate_pdf_report_main env fs).2 = 0
    ∧ (simple_pdf_generator_main env fs).2 = 0
    ∧ (fs srcPath = none →
        msgSrcMissing ∈ (generate_pdf_report_main env fs).1.out
        ∧ msgSrcMissing ∈ (simple_pdf_generator_main env fs).1.out
        ∧ (generate_pdf_report_main env fs).2 = 0)
    ∧ (fs srcPath = some content →
        env.renderPdf (renderHtml env content StyleVariant.pdfOriented) = Except.error e →
        msgFallback ∈ (generate_pdf_report_main env fs).1.out
        ∧ (generate_pdf_report_main env fs).2 = 0) := by
  refine ⟨rfl, rfl, fun h => ?_, fun h hr => ?_⟩
  · have hg := generate_report_run_missing env fs h
    have hs := simple_generator_run_missing env fs h
    refine ⟨?_, ?_, rfl⟩
    · show msgSrcMissing ∈ (generate_report_run env fs).out
      rw [hg]
      simp
    · show msgSrcMissing ∈ (simple_generator_run env fs).out
      rw [hs]
      simp
  · simp only [renderHtml, templateLeadOf, extsOf] at hr
    have hg := generate_report_run_err env fs content e h hr
    refine ⟨?_, rfl⟩
    show msgFallback ∈ (generate_report_run env fs).out
    rw [hg]
    simp

/-- C6 witness: on the empty filesystem both scripts exit 0 and the missing-source error is
among the printed lines. -/
theorem c6_witness :
    (generate_pdf_report_main envModel fsEmpty).2 = 0
    ∧ (simple_pdf_generator_main envModel fsEmpty).2 = 0
    ∧ msgSrcMissing ∈ (generate_pdf_report_main envModel fsEmpty).1.out
    ∧ msgSrcMissing ∈ (simple_pdf_generator_main envModel fsEmpty).1.out :=
  ⟨(c6_exit_status_always_zero envModel fsEmpty exampleInput "e").1,
   (c6_exit_status_always_zero envModel fsEmpty exampleInput "e").2.1,
   ((c6_exit_status_always_zero envModel fsEmpty exampleInput "e").2.2.1 rfl).1,
   ((c6_exit_status_always_zero envModel fsEmpty exampleInput "e").2.2.1 rfl).2.1⟩

/-- C7: `writeArtifact` leaves the set of open handles as it found it (the handle it
acquires is released on its exit path) and unconditionally replaces the prior content: the
file afterwards holds exactly the new HTML whatever it held before; at the script level, a
run with the source present overwrites the HTML artifact path with the freshly rendered
document regardless of that path's previous content. -/
theorem c7_write_artifact_scoped_and_overwrites (st : IOState) (html path prior : String)
    (_hprior : st.fs path = some prior) :
    (writeArtifact st html path).openHandles = st.openHandles
    ∧ (writeArtifact st html path).fs path = some html
    ∧ (∀ env fs content, fs srcPath = some content →
        (simple_pdf_generator_main env fs).1.fs htmlPath
          = some (standardTemplateLead ++ env.md content extsConvertHtml ++ docSuffix)) := by
  refine ⟨rfl, ?_, ?_⟩
  · show (st.fs.write path html) path = some html
    exact write_hit st.fs path html
  · intro env fs content h
    have h2 : (fs.write htmlPath
        (standardTemplateLead ++ env.md content extsConvertHtml ++ docSuffix)) srcPath
        = some content := by
      rw [write_keep fs htmlPath
        (standardTemplateLead ++ env.md content extsConvertHtml ++ docSuffix)
        srcPath (by decide)]
      exact h
    have hrun := simple_generator_run_present env fs content h h2
    show (simple_generator_run env fs).fs htmlPath = _
    rw [hrun]
    exact (write_keep (fs.write htmlPath (standardTemplateLead ++ env.md content extsConvertHtml ++ docSuffix)) printHtmlPath (printTemplateLead ++ env.md content extsCreateSimpleHtml ++ docSuffix) htmlPath (by decide)).trans
      (write_hit fs htmlPath (standardTemplateLead ++ env.md content extsConvertHtml ++ docSuffix))

/-- C7 witness: on a concrete state whose artifact path holds stale content, the write
leaves no handle open and the path holds exactly the new content; and the concrete script
run overwrites the artifact path with the rendered document. -/
theorem c7_witness :
    ioStateExample.fs htmlPath = some "stale artifact"
    ∧ ((writeArtifact ioStateExample "new html" htmlPath).openHandles
          = ioStateExample.openHandles
        ∧ (writeArtifact ioStateExample "new html" htmlPath).fs htmlPath = some "new html"
        ∧ (simple_pdf_generator_main envModel fsWithSource).1.fs htmlPath
          = some (standardTemplateLead
              ++ envModel.md exampleInput extsConvertHtml ++ docSuffix)) :=
  ⟨rfl,
    (c7_write_artifact_scoped_and_overwrites ioStateExample "new html" htmlPath
        "stale artifact" rfl).1,
    (c7_write_artifact_scoped_and_overwrites ioStateExample "new html" htmlPath
        "stale artifact" rfl).2.1,
    (c7_write_artifact_scoped_and_overwrites ioStateExample "new html" htmlPath
        "stale artifact" rfl).2.2 envModel fsWithSource exampleInput rfl⟩

/-- C8 counterexample: the claim says the source document is loaded exactly once per
invocation, but the concrete run of `simple_pdf_generator.py` with the source present opens
and reads the source file twice — once in each of its two conversion operations. -/
theorem c8_counterexample_source_read_twice :
    (simple_pdf_generator_main envModel fsWithSource).1.reads = 2
    ∧ (simple_pdf_generator_main envModel fsWithSource).1.reads ≠ 1 := by
  refine ⟨by decide, by decide⟩

/-- C8 amended: each conversion operation that finds the source present loads it exactly
once, and no operation ever writes the source path; a whole run of
`simple_pdf_generator.py` loads the source twice (once per conversion), a whole run of
`generate_pdf_report.py` loads it once or twice (once more on the fallback), and both runs
leave the source content untouched. -/
theorem c8_amended_source_loaded_per_operation_never_written (env : Env) (fs : FS)
    (content : String) (hsrc : fs srcPath = some content) :
    (create_simplified_pdf env ⟨fs, 0, []⟩).2.reads = 1
    ∧ (convert_markdown_to_html env ⟨fs, 0, []⟩).2.reads = 1
    ∧ (create_simple_html env ⟨fs, 0, []⟩).2.reads = 1
    ∧ (convert_markdown_to_pdf env ⟨fs, 0, []⟩).2.reads = 1
    ∧ (simple_pdf_generator_main env fs).1.reads = 2
    ∧ 1 ≤ (generate_pdf_report_main env fs).1.reads
    ∧ (generate_pdf_report_main env fs).1.reads ≤ 2
    ∧ (simple_pdf_generator_main env fs).1.fs srcPath = some content
    ∧ (generate_pdf_report_main env fs).1.fs srcPath = some content := by
  have h2 : (fs.write htmlPath
      (standardTemplateLead ++ env.md content extsConvertHtml ++ docSuffix)) srcPath
      = some content := by
    rw [write_keep fs htmlPath
      (standardTemplateLead ++ env.md content extsConvertHtml ++ docSuffix)
      srcPath (by decide)]
    exact hsrc
  have hrun := simple_generator_run_present env fs content hsrc h2
  refine ⟨?_, ?_, ?_, ?_, ?_, ?_, ?_, ?_, ?_⟩
  · rw [create_simplified_pdf_present env ⟨fs, 0, []⟩ content hsrc]
  · rw [convert_markdown_to_html_present env ⟨fs, 0, []⟩ content hsrc]
  · rw [create_simple_html_present env ⟨fs, 0, []⟩ content hsrc]
  · cases hr : env.renderPdf (pdfTemplateLead ++ env.md content extsConvertPdf ++ docSuffix)
      with
    | error e => rw [convert_markdown_to_pdf_err env ⟨fs, 0, []⟩ content e hsrc hr]
    | ok b => rw [convert_markdown_to_pdf_ok env ⟨fs, 0, []⟩ content b hsrc hr]
  · show (simple_generator_run env fs).reads = 2
    rw [hrun]
  · show 1 ≤ (generate_report_run env fs).reads
    cases hr : env.renderPdf (pdfTemplateLead ++ env.md content extsConvertPdf ++ docSuffix)
      with
    | error e =>
      rw [generate_report_run_err env fs content e hsrc hr]
      exact Nat.le_succ 1
    | ok b =>
      rw [generate_report_run_ok env fs content b hsrc hr]
  · show (generate_report_run env fs).reads ≤ 2
    cases hr : env.renderPdf (pdfTemplateLead ++ env.md content extsConvertPdf ++ docSuffix)
      with
    | error e =>
      rw [generate_report_run_err env fs content e hsrc hr]
    | ok b =>
      rw [generate_report_run_ok env fs content b hsrc hr]
      exact Nat.le_succ 1
  · show (simple_generator_run env fs).fs srcPath = some content
    rw [hrun]
    exact (write_keep (fs.write htmlPath (standardTemplateLead ++ env.md content extsConvertHtml ++ docSuffix)) printHtmlPath (printTemplateLead ++ env.md content extsCreateSimpleHtml ++ docSuffix) srcPath (by decide)).trans h2
  · show (generate_report_run env fs).fs srcPath = some content
    cases hr : env.renderPdf (pdfTemplateLead ++ env.md content extsConvertPdf ++ docSuffix)
      with
    | error e =>
      rw [generate_report_run_err env fs content e hsrc hr]
      exact (write_keep fs htmlPath (simplifiedTemplateLead ++ env.md content extsCreateSimplified ++ docSuffix) srcPath (by decide)).trans hsrc
    | ok b =>
      rw [generate_report_run_ok env fs content b hsrc hr]
      exact (write_keep fs pdfPath b srcPath (by decide)).trans hsrc

/-- C8 amended witness: evaluated on the concrete model environment and the filesystem
holding the example source. -/
theorem c8_amended_witness :
    fsWithSource srcPath = some exampleInput
    ∧ ((create_simplified_pdf envModel ⟨fsWithSource, 0, []⟩).2.reads = 1
        ∧ (convert_markdown_to_html envModel ⟨fsWithSource, 0, []⟩).2.reads = 1
        ∧ (create_simple_html envModel ⟨fsWithSource, 0, []⟩).2.reads = 1
        ∧ (convert_markdown_to_pdf envModel ⟨fsWithSource, 0, []⟩).2.reads = 1
        ∧ (simple_pdf_generator_main envModel fsWithSource).1.reads = 2
        ∧ 1 ≤ (generate_pdf_report_main envModel fsWithSource).1.reads
        ∧ (generate_pdf_report_main envModel fsWithSource).1.reads ≤ 2
        ∧ (simple_pdf_generator_main envModel fsWithSource).1.fs srcPath = some exampleInput
        ∧ (generate_pdf_report_main envModel fsWithSource).1.fs srcPath = some exampleInput) :=
  ⟨rfl, c8_amended_source_loaded_per_operation_never_written envModel fsWithSource
      exampleInput rfl⟩

/-- C9: in `generate_pdf_report.py`, whenever `convert_markdown_to_pdf` returns `False` the
boolean result of the fallback `create_simplified_pdf` is ignored and the script
unconditionally prints that an HTML report was created; in particular, with the source file
missing, the HTML-created message is printed even though no file was written at all. -/
theorem c9_html_created_message_unconditional (env : Env) (fs : FS)
    (hfail : (convert_markdown_to_pdf env ⟨fs, 0, [msgGenStart]⟩).1 = false) :
    msgHtmlCreated ∈ (generate_pdf_report_main env fs).1.out
    ∧ (fs srcPath = none →
        (generate_pdf_report_main env fs).1.fs = fs
        ∧ msgHtmlCreated ∈ (generate_pdf_report_main env fs).1.out) := by
  constructor
  · show msgHtmlCreated ∈ (generate_report_run env fs).out
    simp only [generate_report_run, hfail]
    simp [msgHtmlBranch]
  · intro h
    have hg := generate_report_run_missing env fs h
    constructor
    · show (generate_report_run env fs).fs = fs
      rw [hg]
    · show msgHtmlCreated ∈ (generate_report_run env fs).out
      rw [hg]
      simp [msgHtmlBranch]

/-- C9 witness: on the empty filesystem the PDF attempt fails, nothing is written, and the
HTML-created message is still printed. -/
theorem c9_witness :
    (convert_markdown_to_pdf envModel ⟨fsEmpty, 0, [msgGenStart]⟩).1 = false
    ∧ (msgHtmlCreated ∈ (generate_pdf_report_main envModel fsEmpty).1.out
        ∧ ((generate_pdf_report_main envModel fsEmpty).1.fs = fsEmpty
            ∧ msgHtmlCreated ∈ (generate_pdf_report_main envModel fsEmpty).1.out)) :=
  ⟨by decide,
    (c9_html_created_message_unconditional envModel fsEmpty (by decide)).1,
    (c9_html_created_message_unconditional envModel fsEmpty (by decide)).2 rfl⟩

/-- C10: all four rendering paths pass the same four extensions — tables, fenced_code, toc
and codehilite — to the Markdown transform, so on a given source text every output variant
embeds the identical transformed body; in particular codehilite is enabled on every path. -/
theorem c10_all_paths_same_extensions (env : Env) (fs : FS) (content e : String) :
    extsConvertPdf = mdExtensions
    ∧ extsCreateSimplified = mdExtensions
    ∧ extsConvertHtml = mdExtensions
    ∧ extsCreateSimpleHtml = mdExtensions
    ∧ "markdown.extensions.codehilite" ∈ mdExtensions
    ∧ (∀ v w : StyleVariant, env.md content (extsOf v) = env.md content (extsOf w))
    ∧ (fs srcPath = some content →
        (simple_pdf_generator_main env fs).1.fs htmlPath
          = some (docHead ++ "\n" ++ standardCss ++ "\n" ++ docMid
              ++ env.md content mdExtensions ++ docSuffix)
        ∧ (simple_pdf_generator_main env fs).1.fs printHtmlPath
          = some (docHead ++ "\n" ++ printCss ++ "\n" ++ docMid
              ++ env.md content mdExtensions ++ docSuffix)
        ∧ (env.renderPdf (renderHtml env content StyleVariant.pdfOriented) = Except.error e →
            (generate_pdf_report_main env fs).1.fs htmlPath
              = some (docHead ++ "\n" ++ simplifiedCss ++ "\n" ++ docMid
                  ++ env.md content mdExtensions ++ docSuffix))) := by
  refine ⟨rfl, rfl, rfl, rfl, by decide, fun v w => ?_, fun h => ?_⟩
  · cases v <;> cases w <;> rfl
  · have h2 : (fs.write htmlPath
        (standardTemplateLead ++ env.md content extsConvertHtml ++ docSuffix)) srcPath
        = some content := by
      rw [write_keep fs htmlPath
        (standardTemplateLead ++ env.md content extsConvertHtml ++ docSuffix)
        srcPath (by decide)]
      exact h
    have hrun := simple_generator_run_present env fs content h h2
    refine ⟨?_, ?_, fun hr => ?_⟩
    · show (simple_generator_run env fs).fs htmlPath = _
      rw [hrun]
      exact (write_keep (fs.write htmlPath (standardTemplateLead ++ env.md content extsConvertHtml ++ docSuffix)) printHtmlPath (printTemplateLead ++ env.md content extsCreateSimpleHtml ++ docSuffix) htmlPath (by decide)).trans
        (write_hit fs htmlPath (standardTemplateLead ++ env.md content extsConvertHtml ++ docSuffix))
    · show (simple_generator_run env fs).fs printHtmlPath = _
      rw [hrun]
      exact write_hit
        (fs.write htmlPath
          (standardTemplateLead ++ env.md content extsConvertHtml ++ docSuffix))
        printHtmlPath
        (printTemplateLead ++ env.md content extsCreateSimpleHtml ++ docSuffix)
    · simp only [renderHtml, templateLeadOf, extsOf] at hr
      have hg := generate_report_run_err env fs content e h hr
      show (generate_report_run env fs).fs htmlPath = _
      rw [hg]
      exact write_hit fs htmlPath
        (simplifiedTemplateLead ++ env.md content extsCreateSimplified ++ docSuffix)

/-- C10 witness: evaluated on the concrete model environment with the example source and an
erroring renderer: both written artifacts and the fallback artifact embed the body rendered
with the one shared extension list. -/
theorem c10_witness :
    fsWithSource srcPath = some exampleInput
    ∧ envModel.md exampleInput (extsOf StyleVariant.standard)
        = envModel.md exampleInput (extsOf StyleVariant.pdfOriented)
    ∧ (simple_pdf_generator_main envModel fsWithSource).1.fs htmlPath
        = some (docHead ++ "\n" ++ standardCss ++ "\n" ++ docMid
            ++ envModel.md exampleInput mdExtensions ++ docSuffix)
    ∧ (generate_pdf_report_main envModel fsWithSource).1.fs htmlPath
        = some (docHead ++ "\n" ++ simplifiedCss ++ "\n" ++ docMid
            ++ envModel.md exampleInput mdExtensions ++ docSuffix) :=
  ⟨rfl,
    (c10_all_paths_same_extensions envModel fsWithSource exampleInput "e").2.2.2.2.2.1
      StyleVariant.standard StyleVariant.pdfOriented,
    ((c10_all_paths_same_extensions envModel fsWithSource exampleInput
        "No wkhtmltopdf executable found").2.2.2.2.2.2 rfl).1,
    (((c10_all_paths_same_extensions envModel fsWithSource exampleInput
        "No wkhtmltopdf executable found").2.2.2.2.2.2 rfl).2.2 rfl)⟩

end DogWalkerApp
